import Mathlib

/-!
Verification of `tools/analysis/benchmark_compare.py`, the benchmark-regression
comparator of this repository.

The script is embedded shallowly:

* Python floats are modelled as rationals (`Rat`); every duration that the
  comparator manipulates is a plain numeric value read from JSON.
* A benchmark record is a finite mapping from field name to numeric value
  (`Bench`), and a measurement set maps benchmark name to record
  (`MeasurementSet`); both are association lists with Python-dict lookup
  semantics (`List.lookup`).
* Python exceptions are modelled with `Except`: a raised exception is an
  `Except.error` value, and exception propagation is the propagation of
  `Except.error` through the sequenced computation, exactly as an uncaught
  exception aborts `compare_benchmarks`.
* `sorted(all_names)` is embedded as `List.insertionSort (· ≤ ·)` over the
  deduplicated key union; any correct sort produces the same (unique) sorted
  list of the distinct names.
-/

namespace BenchmarkCompare

/-- Python exceptions raised by the script.  `valueErrorNoTime` is the
`ValueError` raised by `get_time`; `keyError` and `typeError` arise while
loading (`b['name']`, `'benchmarks' in data`, subscripting non-containers). -/
inductive PyErr where
  | typeError (msg : String)
  | keyError (key : String)
  | valueErrorNoTime (benchmark : List (String × Rat))
deriving Repr, DecidableEq

/-- The five-way classification, from `class ChangeType(Enum)`. -/
inductive ChangeType where
  | IMPROVEMENT
  | REGRESSION
  | UNCHANGED
  | NEW
  | REMOVED
deriving Repr, DecidableEq

/-- One benchmark record: field name to numeric value (`cpu_time`, `real_time`,
...).  Python duration fields are numeric; they are modelled as rationals. -/
abbrev Bench := List (String × Rat)

/-- A measurement set: benchmark name to record, as produced by the loader.
Python dict keys are unique; lookups use first-match association-list
semantics, which agrees with dict lookup on unique keys. -/
abbrev MeasurementSet := List (String × Bench)

/-- The `@dataclass BenchmarkComparison`. -/
structure BenchmarkComparison where
  name : String
  baseline_time : Option Rat
  current_time : Option Rat
  change_percent : Rat
  change_type : ChangeType
  speedup : Rat
deriving Repr, DecidableEq

/-- `get_time`: prefer `cpu_time`, fall back to `real_time`, raise `ValueError`
when neither field is present. -/
def get_time (benchmark : Bench) : Except PyErr Rat :=
  match List.lookup "cpu_time" benchmark with
  | some t => .ok t
  | none =>
    match List.lookup "real_time" benchmark with
    | some t => .ok t
    | none => .error (.valueErrorNoTime benchmark)

/-- The body of the `for name in sorted(all_names)` loop of
`compare_benchmarks`, for a single name.  The `none, none` case corresponds to
`get_time(None)` in Python (a `TypeError`); it is unreachable for names drawn
from the key union. -/
def compareOne (baseline current : MeasurementSet) (threshold : Rat)
    (name : String) : Except PyErr BenchmarkComparison :=
  match List.lookup name baseline with
  | none =>
    match List.lookup name current with
    | none => .error (.typeError "argument of type NoneType is not iterable")
    | some current_bench =>
      match get_time current_bench with
      | .error e => .error e
      | .ok t =>
        .ok { name := name, baseline_time := none, current_time := some t,
              change_percent := 0, change_type := .NEW, speedup := 1 }
  | some baseline_bench =>
    match List.lookup name current with
    | none =>
      match get_time baseline_bench with
      | .error e => .error e
      | .ok t =>
        .ok { name := name, baseline_time := some t, current_time := none,
              change_percent := 0, change_type := .REMOVED, speedup := 1 }
    | some current_bench =>
      match get_time baseline_bench with
      | .error e => .error e
      | .ok baseline_time =>
        match get_time current_bench with
        | .error e => .error e
        | .ok current_time =>
          let cp_spd : Rat × Rat :=
            if 0 < baseline_time then
              ((current_time - baseline_time) / baseline_time,
               if 0 < current_time then baseline_time / current_time else 0)
            else (0, 1)
          let change_type :=
            if threshold < cp_spd.1 then ChangeType.REGRESSION
            else if cp_spd.1 < -threshold then ChangeType.IMPROVEMENT
            else ChangeType.UNCHANGED
          .ok { name := name, baseline_time := some baseline_time,
                current_time := some current_time,
                change_percent := cp_spd.1, change_type := change_type,
                speedup := cp_spd.2 }

/-- Effectful map over a list: the loop accumulating `comparisons`; the first
raised exception aborts the whole loop with no partial result. -/
def mapE {α β : Type} (f : α → Except PyErr β) : List α → Except PyErr (List β)
  | [] => .ok []
  | a :: as =>
    match f a with
    | .error e => .error e
    | .ok b =>
      match mapE f as with
      | .error e => .error e
      | .ok bs => .ok (b :: bs)

/-- `sorted(set(baseline.keys()) | set(current.keys()))`: the distinct names of
both sets, sorted lexicographically. -/
def sortedNames (baseline current : MeasurementSet) : List String :=
  List.insertionSort (fun a b => a ≤ b)
    ((baseline.map Prod.fst ++ current.map Prod.fst).dedup)

/-- `compare_benchmarks(baseline, current, threshold)`. -/
def compare_benchmarks (baseline current : MeasurementSet) (threshold : Rat) :
    Except PyErr (List BenchmarkComparison) :=
  mapE (compareOne baseline current threshold) (sortedNames baseline current)

/-- `check_regression(comparisons, threshold)`; the threshold parameter is
accepted but never read. -/
def check_regression (comparisons : List BenchmarkComparison)
    (threshold : Rat) : Bool × List BenchmarkComparison :=
  let regressions :=
    comparisons.filter (fun c => c.change_type == ChangeType.REGRESSION)
  (decide (0 < regressions.length), regressions)

/-! The duration formatter and the markdown report generator. -/

/-- Round a rational to the nearest integer, ties to even: the rounding Python
applies to the scaled value when rendering a float with a fixed number of
decimal digits. -/
def roundHalfEven (q : Rat) : Int :=
  let f : Int := Int.floor q
  let frac : Rat := q - f
  if frac < 1/2 then f
  else if 1/2 < frac then f + 1
  else if f % 2 = 0 then f else f + 1

/-- Fixed-point rendering of a non-negative rational with `prec` decimal
digits (integer digits, a dot, then exactly `prec` digits). -/
def fmtFixedNonneg (prec : Nat) (x : Rat) : String :=
  let scale : Nat := 10 ^ prec
  let n : Nat := (roundHalfEven (x * scale)).toNat
  let ip : Nat := n / scale
  let fp : Nat := n % scale
  let fpStr : String := Nat.repr fp
  let pad : String := String.mk (List.replicate (prec - fpStr.length) '0')
  Nat.repr ip ++ "." ++ pad ++ fpStr

/-- Python fixed-point formatting `f"x:.precf"`: a leading minus for negative
values, then the fixed-point digits.  The script's durations are numeric JSON
values, modelled as exact rationals, so this renders the exact value (Python
renders the nearest double). -/
def pyFmtFixed (prec : Nat) (x : Rat) : String :=
  if x < 0 then "-" ++ fmtFixedNonneg prec (-x) else fmtFixedNonneg prec x

/-- `format_time(ns)`: unit thresholds at 1e3 / 1e6 / 1e9 nanoseconds, two
decimal digits.  The microsecond unit string is embedded byte-for-byte from
the source file, whose literal is the two characters `U+00AC U+00B5` (an
encoding artifact: a UTF-8 `µ` that was decoded as Latin-1, like every emoji
literal in the same file) followed by `s`. -/
def format_time (ns : Rat) : String :=
  if ns < 1000 then pyFmtFixed 2 ns ++ " ns"
  else if ns < 1000000 then pyFmtFixed 2 (ns / 1000) ++ " \u00AC\u00B5s"
  else if ns < 1000000000 then pyFmtFixed 2 (ns / 1000000) ++ " ms"
  else pyFmtFixed 2 (ns / 1000000000) ++ " s"

/-- The repeated table-cell idiom of `generate_markdown_report`:
`format_time(x) if x else "N/A"`.  Python truthiness makes both `None` and
`0.0` render as `"N/A"`. -/
def timeCell : Option Rat → String
  | none => "N/A"
  | some v => if v = 0 then "N/A" else format_time v

/-- The `status_emoji` mapping of the full-results table; string literals are
embedded byte-for-byte from the (mojibake-encoded) source file. -/
def status_emoji : ChangeType → String
  | .IMPROVEMENT => "\u201A\u00FA\u00D6"
  | .REGRESSION => "\u201A\u00F9\u00E5"
  | .UNCHANGED => "\u201A\u00FE\u00F1"
  | .NEW => "\uF8FF\u00FC\u00DC\u00EF"
  | .REMOVED => "\uF8FF\u00FC\u00F3\u00EB\u00D4\u220F\u00E8"

/-- One row of the regressions table (note the unconditional leading `+` on
the change column). -/
def regressionRow (c : BenchmarkComparison) : String :=
  "| " ++ c.name ++ " | " ++ timeCell c.baseline_time ++ " | "
    ++ timeCell c.current_time ++ " | +"
    ++ pyFmtFixed 1 (c.change_percent * 100) ++ "% | "
    ++ pyFmtFixed 2 c.speedup ++ "x |"

/-- One row of the improvements table. -/
def improvementRow (c : BenchmarkComparison) : String :=
  "| " ++ c.name ++ " | " ++ timeCell c.baseline_time ++ " | "
    ++ timeCell c.current_time ++ " | "
    ++ pyFmtFixed 1 (c.change_percent * 100) ++ "% | "
    ++ pyFmtFixed 2 c.speedup ++ "x |"

/-- One row of the full-results table: `N/A` in the change column for
new/removed rows, a sign only when the change is positive, and the status
emoji. -/
def allResultsRow (c : BenchmarkComparison) : String :=
  let change_str :=
    if c.change_type = ChangeType.NEW ∨ c.change_type = ChangeType.REMOVED
    then "N/A"
    else (if 0 < c.change_percent then "+" else "")
      ++ pyFmtFixed 1 (c.change_percent * 100) ++ "%"
  "| " ++ c.name ++ " | " ++ timeCell c.baseline_time ++ " | "
    ++ timeCell c.current_time ++ " | " ++ change_str ++ " | "
    ++ status_emoji c.change_type ++ " |"

/-- `generate_markdown_report`, as the list of lines that the script joins
with a newline: header, summary counts, a regressions table (only when
non-empty), an improvements table (only when non-empty), and the full-results
table. -/
def generate_markdown_report_lines (comparisons : List BenchmarkComparison)
    (baseline_file current_file : String) : List String :=
  let improvements := comparisons.filter
    (fun c => c.change_type == ChangeType.IMPROVEMENT)
  let regressions := comparisons.filter
    (fun c => c.change_type == ChangeType.REGRESSION)
  let unchanged := comparisons.filter
    (fun c => c.change_type == ChangeType.UNCHANGED)
  let new_benchmarks := comparisons.filter
    (fun c => c.change_type == ChangeType.NEW)
  let removed := comparisons.filter
    (fun c => c.change_type == ChangeType.REMOVED)
  ["# Benchmark Comparison Report", "",
   "- **Baseline**: `" ++ baseline_file ++ "`",
   "- **Current**: `" ++ current_file ++ "`",
   "", "## Summary", "",
   "- \u201A\u00FA\u00D6 Improvements: " ++ Nat.repr improvements.length,
   "- \u201A\u00F9\u00E5 Regressions: " ++ Nat.repr regressions.length,
   "- \u201A\u00FE\u00F1 Unchanged: " ++ Nat.repr unchanged.length,
   "- \uF8FF\u00FC\u00DC\u00EF New: " ++ Nat.repr new_benchmarks.length,
   "- \uF8FF\u00FC\u00F3\u00EB\u00D4\u220F\u00E8 Removed: "
     ++ Nat.repr removed.length,
   ""]
  ++ (if regressions.isEmpty then [] else
      ["## \u201A\u00F9\u00E5 Regressions", "",
       "| Benchmark | Baseline | Current | Change | Speedup |",
       "|-----------|----------|---------|--------|---------|"]
      ++ regressions.map regressionRow ++ [""])
  ++ (if improvements.isEmpty then [] else
      ["## \u201A\u00FA\u00D6 Improvements", "",
       "| Benchmark | Baseline | Current | Change | Speedup |",
       "|-----------|----------|---------|--------|---------|"]
      ++ improvements.map improvementRow ++ [""])
  ++ (["## All Results", "",
       "| Benchmark | Baseline | Current | Change | Status |",
       "|-----------|----------|---------|--------|--------|"]
      ++ comparisons.map allResultsRow)

/-- `generate_markdown_report`: the joined report text. -/
def generate_markdown_report (comparisons : List BenchmarkComparison)
    (baseline_file current_file : String) : String :=
  String.intercalate "\n"
    (generate_markdown_report_lines comparisons baseline_file current_file)

/-! The measurement loader, over a model of Python/JSON values. -/

/-- Python values as held after `json.load`.  Dict keys are arbitrary Python
values (JSON itself only produces string keys, but the loader can build dicts
whose keys come from a `name` field of any type). -/
inductive Json where
  | null
  | bool (b : Bool)
  | num (v : Rat)
  | str (s : String)
  | arr (items : List Json)
  | obj (entries : List (Json × Json))

/-- Whether a Python value equals the string `s` (Python `==` against a
string: values of non-string types never compare equal to a string). -/
def Json.isStr : Json → String → Bool
  | .str t, s => t == s
  | _, _ => false

/-- Whether a character list begins with the pattern. -/
def startsList : List Char → List Char → Bool
  | [], _ => true
  | _ :: _, [] => false
  | p :: ps, c :: cs => p == c && startsList ps cs

/-- Whether the pattern occurs contiguously in the list. -/
def hasSubList : List Char → List Char → Bool
  | pat, [] => startsList pat []
  | pat, c :: cs => startsList pat (c :: cs) || hasSubList pat cs

/-- Python substring containment `s in t`. -/
def strContainsSub (t s : String) : Bool := hasSubList s.toList t.toList

/-- Python `s in data` for a string `s`: dict key membership, list element
membership, or substring test; `TypeError` for non-container values. -/
def pyContains (data : Json) (s : String) : Except PyErr Bool :=
  match data with
  | .obj entries => .ok (entries.any fun kv => kv.1.isStr s)
  | .arr items => .ok (items.any fun j => j.isStr s)
  | .str t => .ok (strContainsSub t s)
  | _ => .error (.typeError "argument is not iterable")

/-- Python `data[s]` for a string key `s`: dict lookup (`KeyError` when
absent); `TypeError` on anything that is not a dict. -/
def pyGetItemStr (data : Json) (s : String) : Except PyErr Json :=
  match data with
  | .obj entries =>
    match entries.find? (fun kv => kv.1.isStr s) with
    | some kv => .ok kv.2
    | none => .error (.keyError s)
  | _ => .error (.typeError "indices must be integers")

/-- Python iteration `for b in data`: list elements, dict keys, characters of
a string; `TypeError` otherwise. -/
def pyIter (data : Json) : Except PyErr (List Json) :=
  match data with
  | .arr items => .ok items
  | .obj entries => .ok (entries.map Prod.fst)
  | .str t => .ok (t.toList.map fun ch => Json.str (String.mk [ch]))
  | _ => .error (.typeError "not iterable")

/-- Python hashability of a prospective dict key: lists and dicts are
unhashable, every other JSON value is hashable. -/
def Json.pyHashable : Json → Bool
  | .arr _ => false
  | .obj _ => false
  | _ => true

/-- Equality of scalar dict keys (unhashable keys are rejected before any
comparison happens).  Python's numeric cross-type equalities such as
`True == 1` are not modelled; benchmark names are strings. -/
def Json.scalarEq : Json → Json → Bool
  | .null, .null => true
  | .bool a, .bool b => a == b
  | .num a, .num b => a == b
  | .str a, .str b => a == b
  | _, _ => false

/-- Python dict insertion `d[k] = v`: overwrite in place when the key exists,
append otherwise. -/
def dictInsert (d : List (Json × Json)) (k v : Json) : List (Json × Json) :=
  match d with
  | [] => [(k, v)]
  | (k2, v2) :: rest =>
    if k2.scalarEq k then (k2, v) :: rest else (k2, v2) :: dictInsert rest k v

/-- The dict comprehension `\x7bb['name']: b for b in items\x7d`, left to
right; a record without a subscriptable `name` raises (`KeyError` or
`TypeError`) and aborts the comprehension. -/
def benchDict : List Json → List (Json × Json) →
    Except PyErr (List (Json × Json))
  | [], acc => .ok acc
  | b :: rest, acc =>
    match pyGetItemStr b "name" with
    | .error e => .error e
    | .ok k =>
      if k.pyHashable then benchDict rest (dictInsert acc k b)
      else .error (.typeError "unhashable type")

/-- `load_benchmark_json`, after `json.load` has produced `data`: when
`'benchmarks' in data`, build the name-to-record dict from
`data['benchmarks']`; otherwise return `data` unchanged.  The script defines
no `FormatError` and performs no shape validation. -/
def load_benchmark_json (data : Json) : Except PyErr Json :=
  match pyContains data "benchmarks" with
  | .error e => .error e
  | .ok true =>
    match pyGetItemStr data "benchmarks" with
    | .error e => .error e
    | .ok bs =>
      match pyIter bs with
      | .error e => .error e
      | .ok items =>
        match benchDict items [] with
        | .error e => .error e
        | .ok d => .ok (.obj d)
  | .ok false => .ok data

/-! Helper lemmas about the embedded comparator. -/

theorem compareOne_name {b cur : MeasurementSet} {t : Rat} {n : String}
    {c : BenchmarkComparison} (h : compareOne b cur t n = .ok c) :
    c.name = n := by
  unfold compareOne at h
  repeat' split at h
  all_goals try (injection h; done)
  all_goals (injection h with h2; subst h2; rfl)

theorem compareOne_unmatched {b cur : MeasurementSet} {t : Rat} {n : String}
    {c : BenchmarkComparison} (h : compareOne b cur t n = .ok c)
    (hu : c.baseline_time = none ∨ c.current_time = none) :
    c.change_percent = 0 ∧ c.speedup = 1 := by
  unfold compareOne at h
  repeat' split at h
  all_goals try (injection h; done)
  all_goals (injection h with h2; subst h2; simp_all)

theorem compareOne_both {b cur : MeasurementSet} {t : Rat} {n : String}
    {c : BenchmarkComparison} (h : compareOne b cur t n = .ok c)
    {bt ct : Rat} (hbt : c.baseline_time = some bt)
    (hct : c.current_time = some ct) :
    (0 < bt → c.change_percent = (ct - bt) / bt
      ∧ (0 < ct → c.speedup = bt / ct) ∧ (¬ 0 < ct → c.speedup = 0))
    ∧ (¬ 0 < bt → c.change_percent = 0 ∧ c.speedup = 1)
    ∧ (c.change_type = .REGRESSION ↔ t < c.change_percent)
    ∧ (c.change_type = .UNCHANGED ↔
        ¬ t < c.change_percent ∧ ¬ c.change_percent < -t)
    ∧ (0 ≤ t → (c.change_type = .IMPROVEMENT ↔ c.change_percent < -t))
    ∧ (c.change_type = .REGRESSION ∨ c.change_type = .IMPROVEMENT
        ∨ c.change_type = .UNCHANGED) := by
  unfold compareOne at h
  repeat' split at h
  all_goals try (injection h; done)
  all_goals (injection h with h2; subst h2; simp_all)
  all_goals (split_ifs <;> try simp_all)
  all_goals linarith

theorem mapE_ok_mem {α β : Type} {f : α → Except PyErr β} {xs : List α}
    {ys : List β} (h : mapE f xs = .ok ys) {y : β} (hy : y ∈ ys) :
    ∃ x, x ∈ xs ∧ f x = .ok y := by
  induction xs generalizing ys with
  | nil =>
    unfold mapE at h
    injection h with h2
    subst h2
    simp at hy
  | cons a as ih =>
    unfold mapE at h
    split at h
    · exact absurd h (by simp)
    · split at h
      · exact absurd h (by simp)
      · injection h with h2
        subst h2
        rcases List.mem_cons.mp hy with rfl | hmem
        · exact ⟨a, List.mem_cons_self a as, by assumption⟩
        · obtain ⟨x, hx, hfx⟩ := ih (by assumption) hmem
          exact ⟨x, List.mem_cons_of_mem a hx, hfx⟩

theorem mapE_ok_map {α β : Type} {f : α → Except PyErr β} {g : β → α}
    (hg : ∀ x y, f x = .ok y → g y = x) {xs : List α} {ys : List β}
    (h : mapE f xs = .ok ys) : ys.map g = xs := by
  induction xs generalizing ys with
  | nil =>
    unfold mapE at h
    injection h with h2
    subst h2
    rfl
  | cons a as ih =>
    unfold mapE at h
    split at h
    · exact absurd h (by simp)
    · split at h
      · exact absurd h (by simp)
      · injection h with h2
        subst h2
        simp only [List.map_cons]
        rw [hg a _ (by assumption), ih (by assumption)]

theorem mapE_congr {α β : Type} {f g : α → Except PyErr β} {xs : List α}
    (hfg : ∀ x ∈ xs, f x = g x) : mapE f xs = mapE g xs := by
  induction xs with
  | nil => rfl
  | cons a as ih =>
    unfold mapE
    rw [hfg a (List.mem_cons_self a as), ih fun x hx => hfg x (List.mem_cons_of_mem a hx)]

theorem mapE_error_of_mem {α β : Type} {f : α → Except PyErr β} {xs : List α}
    {x : α} {e : PyErr} (hx : x ∈ xs) (he : f x = .error e) :
    ∃ e2, mapE f xs = .error e2 := by
  induction xs with
  | nil => simp at hx
  | cons a as ih =>
    rcases List.mem_cons.mp hx with rfl | hmem
    · exact ⟨e, by unfold mapE; rw [he]⟩
    · unfold mapE
      cases hfa : f a with
      | error e3 => exact ⟨e3, rfl⟩
      | ok b =>
        obtain ⟨e2, h2⟩ := ih hmem
        exact ⟨e2, by rw [h2]⟩

theorem lookup_some_mem_keys {β : Type} {l : List (String × β)} {n : String}
    {r : β} (h : List.lookup n l = some r) : n ∈ l.map Prod.fst := by
  obtain ⟨l₁, l₂, rfl, -⟩ := List.lookup_eq_some_iff.mp h
  simp

theorem perm_lookup_eq {β : Type} {l₁ l₂ : List (String × β)}
    (p : l₁.Perm l₂) :
    (l₂.map Prod.fst).Nodup → ∀ n, List.lookup n l₁ = List.lookup n l₂ := by
  induction p with
  | nil => exact fun _ _ => rfl
  | cons x p ih =>
    intro nd n
    obtain ⟨k, v⟩ := x
    simp only [List.map_cons] at nd
    have nd2 := nd.of_cons
    cases hbe : (n == k) with
    | true => simp [List.lookup_cons, hbe]
    | false =>
      simp only [List.lookup_cons, hbe]
      exact ih nd2 n
  | swap x y l =>
    intro nd n
    obtain ⟨a, av⟩ := x
    obtain ⟨b, bv⟩ := y
    simp only [List.map_cons, List.nodup_cons, List.mem_cons] at nd
    have hne : a ≠ b := fun hab => nd.1 (Or.inl hab)
    cases hbe1 : (n == a) with
    | true =>
      cases hbe2 : (n == b) with
      | true =>
        exact absurd ((beq_iff_eq.mp hbe1).symm.trans (beq_iff_eq.mp hbe2)) hne
      | false => simp [List.lookup_cons, hbe1, hbe2]
    | false =>
      cases hbe2 : (n == b) with
      | true => simp [List.lookup_cons, hbe1, hbe2]
      | false => simp [List.lookup_cons, hbe1, hbe2]
  | trans p₁ p₂ ih₁ ih₂ =>
    intro nd n
    have ndmid := (p₂.map Prod.fst).nodup_iff.mpr nd
    exact (ih₁ ndmid n).trans (ih₂ nd n)

theorem sortedNames_perm_eq {b cur b2 cur2 : MeasurementSet}
    (hbp : b2.Perm b) (hcp : cur2.Perm cur) :
    sortedNames b2 cur2 = sortedNames b cur := by
  unfold sortedNames
  refine List.eq_of_perm_of_sorted ?_ (List.sorted_insertionSort _ _)
    (List.sorted_insertionSort _ _)
  refine (List.perm_insertionSort _ _).trans (.trans ?_ (List.perm_insertionSort _ _).symm)
  exact ((hbp.map Prod.fst).append (hcp.map Prod.fst)).dedup

/-! Claim theorems about the comparator. -/

/-- Claim C1 counterexample: with both times present, `baseline_time = 100 > 0`
and `current_time = 0`, the code sets `speedup = 0`
(`baseline_time / current_time if current_time > 0 else 0`), not `1.0` as the
claim states for the `current_time = 0` case. -/
theorem c1_counterexample :
    compare_benchmarks [("bench", [("cpu_time", 100)])]
        [("bench", [("cpu_time", 0)])] (1/10)
      = .ok [{ name := "bench", baseline_time := some 100,
               current_time := some 0, change_percent := -1,
               change_type := .IMPROVEMENT, speedup := 0 }]
    ∧ (0 : Rat) ≠ 1 := by
  constructor
  · norm_num [compare_benchmarks, sortedNames, mapE, compareOne, get_time,
      List.insertionSort, List.orderedInsert, List.dedup, List.lookup_cons]
  · norm_num

/-- Claim C1 (amended): for every comparison produced by `compare_benchmarks`,
`speedup = baseline_time / current_time` when both times are present,
`baseline_time > 0` and `current_time > 0`; `speedup = 0` when both are present
with `baseline_time > 0` but `current_time ≤ 0`; and `speedup = 1.0` in every
other case (the unmatched `new` and `removed` cases, and `baseline_time ≤ 0`). -/
theorem c1_speedup_amended (b cur : MeasurementSet) (t : Rat)
    (l : List BenchmarkComparison) (c : BenchmarkComparison)
    (hok : compare_benchmarks b cur t = .ok l) (hc : c ∈ l) :
    ((c.baseline_time = none ∨ c.current_time = none) → c.speedup = 1)
    ∧ (∀ bt ct, c.baseline_time = some bt → c.current_time = some ct →
        (0 < bt → 0 < ct → c.speedup = bt / ct)
        ∧ (0 < bt → ct ≤ 0 → c.speedup = 0)
        ∧ (bt ≤ 0 → c.speedup = 1)) := by
  obtain ⟨n, _, hone⟩ := mapE_ok_mem hok hc
  constructor
  · exact fun hu => (compareOne_unmatched hone hu).2
  · intro bt ct hbt hct
    have H := compareOne_both hone hbt hct
    exact ⟨fun h1 h2 => (H.1 h1).2.1 h2,
      fun h1 h2 => (H.1 h1).2.2 (not_lt.mpr h2),
      fun h1 => (H.2.1 (not_lt.mpr h1)).2⟩

/-- Claim C1 witness: a run in which both times are present and positive, so
the amended speedup contract is exercised at a concrete input. -/
theorem c1_speedup_amended_witness :
    compare_benchmarks [("a", [("cpu_time", 100)])] [("a", [("cpu_time", 50)])]
        (1/10)
      = .ok [{ name := "a", baseline_time := some 100, current_time := some 50,
               change_percent := -(1/2), change_type := .IMPROVEMENT,
               speedup := 2 }]
    ∧ (({ name := "a", baseline_time := some 100, current_time := some 50,
          change_percent := -(1/2), change_type := .IMPROVEMENT,
          speedup := 2 } : BenchmarkComparison).baseline_time = none ∨
        ({ name := "a", baseline_time := some 100, current_time := some 50,
           change_percent := -(1/2), change_type := .IMPROVEMENT,
           speedup := 2 } : BenchmarkComparison).current_time = none →
        ({ name := "a", baseline_time := some 100, current_time := some 50,
           change_percent := -(1/2), change_type := .IMPROVEMENT,
           speedup := 2 } : BenchmarkComparison).speedup = 1) := by
  have hok : compare_benchmarks [("a", [("cpu_time", 100)])]
      [("a", [("cpu_time", 50)])] (1/10)
      = .ok [{ name := "a", baseline_time := some 100, current_time := some 50,
               change_percent := -(1/2), change_type := .IMPROVEMENT,
               speedup := 2 }] := by
    norm_num [compare_benchmarks, sortedNames, mapE, compareOne, get_time,
      List.insertionSort, List.orderedInsert, List.dedup, List.lookup_cons]
  exact ⟨hok,
    (c1_speedup_amended _ _ _ _ _ hok (List.mem_singleton_self _)).1⟩

/-- Claim C2: for every comparison with both times present (and a non-negative
threshold, as the spec's data model stipulates), exactly one of
improvement/regression/unchanged is assigned, `regression ⇔
change_percent > threshold` (strict), `improvement ⇔ change_percent <
-threshold` (strict); `change_percent = threshold` yields `unchanged`. -/
theorem c2_classification_partition (b cur : MeasurementSet) (t : Rat)
    (l : List BenchmarkComparison) (c : BenchmarkComparison) (bt ct : Rat)
    (ht : 0 ≤ t) (hok : compare_benchmarks b cur t = .ok l) (hc : c ∈ l)
    (hbt : c.baseline_time = some bt) (hct : c.current_time = some ct) :
    (c.change_type = .REGRESSION ∨ c.change_type = .IMPROVEMENT
      ∨ c.change_type = .UNCHANGED)
    ∧ (c.change_type = .REGRESSION ↔ t < c.change_percent)
    ∧ (c.change_type = .IMPROVEMENT ↔ c.change_percent < -t)
    ∧ (c.change_type = .UNCHANGED ↔
        ¬ t < c.change_percent ∧ ¬ c.change_percent < -t)
    ∧ (c.change_percent = t → c.change_type = .UNCHANGED) := by
  obtain ⟨n, _, hone⟩ := mapE_ok_mem hok hc
  have H := compareOne_both hone hbt hct
  refine ⟨H.2.2.2.2.2, H.2.2.1, H.2.2.2.2.1 ht, H.2.2.2.1, fun he => ?_⟩
  exact H.2.2.2.1.mpr ⟨by rw [he]; exact lt_irrefl t,
    by rw [he]; intro hlt; linarith⟩

/-- Claim C2 witness: spec Scenario A — baseline 100, current 120, threshold
0.1 — classified as a regression, exercising the partition at a concrete
input. -/
theorem c2_classification_partition_witness :
    (0 : Rat) ≤ 1/10
    ∧ compare_benchmarks [("a", [("cpu_time", 100)])]
        [("a", [("cpu_time", 120)])] (1/10)
      = .ok [{ name := "a", baseline_time := some 100, current_time := some 120,
               change_percent := 1/5, change_type := .REGRESSION,
               speedup := 5/6 }]
    ∧ (({ name := "a", baseline_time := some 100, current_time := some 120,
          change_percent := 1/5, change_type := .REGRESSION,
          speedup := 5/6 } : BenchmarkComparison).change_type = .REGRESSION
        ↔ (1/10 : Rat) <
          ({ name := "a", baseline_time := some 100, current_time := some 120,
             change_percent := 1/5, change_type := .REGRESSION,
             speedup := 5/6 } : BenchmarkComparison).change_percent) := by
  have hok : compare_benchmarks [("a", [("cpu_time", 100)])]
      [("a", [("cpu_time", 120)])] (1/10)
      = .ok [{ name := "a", baseline_time := some 100, current_time := some 120,
               change_percent := 1/5, change_type := .REGRESSION,
               speedup := 5/6 }] := by
    norm_num [compare_benchmarks, sortedNames, mapE, compareOne, get_time,
      List.insertionSort, List.orderedInsert, List.dedup, List.lookup_cons]
  exact ⟨by norm_num, hok,
    (c2_classification_partition _ _ _ _ _ _ _ (by norm_num) hok
      (List.mem_singleton_self _) rfl rfl).2.1⟩

/-- Claim C6: for every comparison produced by `compare_benchmarks`,
`change_percent = (current - baseline) / baseline` when both times are present
and `baseline_time > 0`, and `change_percent = 0` when `baseline_time = 0` or
either time is absent. -/
theorem c6_change_percent (b cur : MeasurementSet) (t : Rat)
    (l : List BenchmarkComparison) (c : BenchmarkComparison)
    (hok : compare_benchmarks b cur t = .ok l) (hc : c ∈ l) :
    ((c.baseline_time = none ∨ c.current_time = none) → c.change_percent = 0)
    ∧ (∀ bt ct, c.baseline_time = some bt → c.current_time = some ct →
        (0 < bt → c.change_percent = (ct - bt) / bt)
        ∧ (bt = 0 → c.change_percent = 0)) := by
  obtain ⟨n, _, hone⟩ := mapE_ok_mem hok hc
  refine ⟨fun hu => (compareOne_unmatched hone hu).1, fun bt ct hbt hct => ?_⟩
  have H := compareOne_both hone hbt hct
  exact ⟨fun h1 => (H.1 h1).1, fun h0 => (H.2.1 (by simp [h0])).1⟩

/-- Claim C6 witness: a removed benchmark (`current` lacks the name), whose
`change_percent` is 0. -/
theorem c6_change_percent_witness :
    compare_benchmarks [("gone", [("real_time", 7)])] [] (1/10)
      = .ok [{ name := "gone", baseline_time := some 7, current_time := none,
               change_percent := 0, change_type := .REMOVED, speedup := 1 }]
    ∧ ({ name := "gone", baseline_time := some 7, current_time := none,
         change_percent := 0, change_type := .REMOVED,
         speedup := 1 } : BenchmarkComparison).change_percent = 0 := by
  have hok : compare_benchmarks [("gone", [("real_time", 7)])] [] (1/10)
      = .ok [{ name := "gone", baseline_time := some 7, current_time := none,
               change_percent := 0, change_type := .REMOVED, speedup := 1 }] := by
    norm_num [compare_benchmarks, sortedNames, mapE, compareOne, get_time,
      List.insertionSort, List.orderedInsert, List.dedup, List.lookup_cons]
    rfl
  exact ⟨hok,
    (c6_change_percent _ _ _ _ _ hok (List.mem_singleton_self _)).1
      (Or.inr rfl)⟩

/-- Claim C7: `check_regression` returns true in its boolean component iff some
comparison is a regression, and its list component is exactly the regressions
of the input, in input order (a sublist), empty when the boolean is false. -/
theorem c7_gate_filter (comparisons : List BenchmarkComparison)
    (threshold : Rat) :
    ((check_regression comparisons threshold).1 = true ↔
      ∃ c ∈ comparisons, c.change_type = ChangeType.REGRESSION)
    ∧ ((check_regression comparisons threshold).1 = true ↔
        (check_regression comparisons threshold).2 ≠ [])
    ∧ (check_regression comparisons threshold).2.Sublist comparisons
    ∧ (∀ c, c ∈ (check_regression comparisons threshold).2 ↔
        c ∈ comparisons ∧ c.change_type = ChangeType.REGRESSION)
    ∧ (∀ c, (check_regression comparisons threshold).2.count c =
        if c.change_type = ChangeType.REGRESSION then comparisons.count c
        else 0)
    ∧ ((check_regression comparisons threshold).1 = false →
        (check_regression comparisons threshold).2 = []) := by
  unfold check_regression
  refine ⟨?_, ?_, List.filter_sublist _, fun c => ?_, fun c => ?_, ?_⟩
  · simp [List.length_pos_iff_exists_mem, List.mem_filter]
  · simp [List.length_pos]
  · simp [List.mem_filter]
  · split_ifs with h
    · exact List.count_filter (by simp [h])
    · rw [List.count_eq_zero]
      simp [List.mem_filter, h]
  · simp [List.length_pos]

/-- Claim C10: the verdict of `check_regression` does not depend on its
threshold parameter, which the function accepts but never reads. -/
theorem c10_threshold_ignored (comparisons : List BenchmarkComparison)
    (t1 t2 : Rat) :
    check_regression comparisons t1 = check_regression comparisons t2 := rfl

/-- Claim C3: the output of `compare_benchmarks` has exactly one comparison per
name in the union of the key sets, its length is the size of that union, it is
sorted ascending (lexicographically) by name, and it is identical when the two
input maps are presented in any other iteration order (any permutation of the
association lists, keys being unique as in a Python dict). -/
theorem c3_union_sorted_deterministic
    (b cur b2 cur2 : MeasurementSet) (t : Rat) (l : List BenchmarkComparison)
    (hok : compare_benchmarks b cur t = .ok l)
    (hbnd : (b.map Prod.fst).Nodup) (hcnd : (cur.map Prod.fst).Nodup)
    (hbp : b2.Perm b) (hcp : cur2.Perm cur) :
    (∀ n, (n ∈ b.map Prod.fst ∨ n ∈ cur.map Prod.fst) →
      (l.map BenchmarkComparison.name).count n = 1)
    ∧ l.length = ((b.map Prod.fst).toFinset ∪ (cur.map Prod.fst).toFinset).card
    ∧ (l.map BenchmarkComparison.name).Sorted (fun a b => a ≤ b)
    ∧ compare_benchmarks b2 cur2 t = .ok l := by
  have hnames : l.map BenchmarkComparison.name = sortedNames b cur :=
    mapE_ok_map (fun x y hxy => compareOne_name hxy) hok
  have hperm : List.Perm (sortedNames b cur)
      ((b.map Prod.fst ++ cur.map Prod.fst).dedup) :=
    List.perm_insertionSort _ _
  have hnodup : (sortedNames b cur).Nodup :=
    hperm.nodup_iff.mpr (List.nodup_dedup _)
  refine ⟨?_, ?_, ?_, ?_⟩
  · intro n hn
    rw [hnames]
    exact List.count_eq_one_of_mem hnodup
      (hperm.mem_iff.mpr (List.mem_dedup.mpr (List.mem_append.mpr hn)))
  · calc l.length
        = (l.map BenchmarkComparison.name).length := (List.length_map _ _).symm
      _ = (sortedNames b cur).length := by rw [hnames]
      _ = ((b.map Prod.fst ++ cur.map Prod.fst).dedup).length := hperm.length_eq
      _ = (b.map Prod.fst ++ cur.map Prod.fst).toFinset.card :=
          (List.card_toFinset _).symm
      _ = ((b.map Prod.fst).toFinset ∪ (cur.map Prod.fst).toFinset).card := by
          rw [List.toFinset_append]
  · rw [hnames]
    exact List.sorted_insertionSort _ _
  · have heq : compare_benchmarks b2 cur2 t = compare_benchmarks b cur t := by
      unfold compare_benchmarks
      rw [sortedNames_perm_eq hbp hcp]
      refine mapE_congr fun n _ => ?_
      unfold compareOne
      rw [perm_lookup_eq hbp hbnd n, perm_lookup_eq hcp hcnd n]
    rw [heq, hok]

/-- Claim C3 witness: a one-element baseline and current sharing the name
`a`, compared against themselves in the (only) iteration order. -/
theorem c3_union_sorted_deterministic_witness :
    compare_benchmarks [("a", [("cpu_time", 100)])] [("a", [("cpu_time", 100)])]
        (1/10)
      = .ok [{ name := "a", baseline_time := some 100, current_time := some 100,
               change_percent := 0, change_type := .UNCHANGED, speedup := 1 }]
    ∧ ([("a", [("cpu_time", (100:Rat))])].map Prod.fst).Nodup
    ∧ ([{ name := "a", baseline_time := some 100, current_time := some 100,
          change_percent := 0, change_type := .UNCHANGED,
          speedup := 1 }] : List BenchmarkComparison).length
      = (([("a", [("cpu_time", (100:Rat))])].map Prod.fst).toFinset
          ∪ ([("a", [("cpu_time", (100:Rat))])].map Prod.fst).toFinset).card := by
  have hok : compare_benchmarks [("a", [("cpu_time", 100)])]
      [("a", [("cpu_time", 100)])] (1/10)
      = .ok [{ name := "a", baseline_time := some 100, current_time := some 100,
               change_percent := 0, change_type := .UNCHANGED, speedup := 1 }] := by
    norm_num [compare_benchmarks, sortedNames, mapE, compareOne, get_time,
      List.insertionSort, List.orderedInsert, List.dedup, List.lookup_cons]
  refine ⟨hok, by simp, ?_⟩
  exact (c3_union_sorted_deterministic _ _ _ _ _ _ hok (by simp) (by simp)
    (List.Perm.refl _) (List.Perm.refl _)).2.1

/-- Claim C5: if any record aligned by `compare_benchmarks` lacks both
`cpu_time` and `real_time`, the whole comparison aborts with an exception and
no list of comparisons (not even a partial one) is returned. -/
theorem c5_missing_time_aborts (b cur : MeasurementSet) (t : Rat) (n : String)
    (r : Bench)
    (hr : List.lookup n b = some r ∨ List.lookup n cur = some r)
    (hcpu : List.lookup "cpu_time" r = none)
    (hreal : List.lookup "real_time" r = none) :
    (∃ e, compare_benchmarks b cur t = .error e)
    ∧ ∀ l, compare_benchmarks b cur t ≠ .ok l := by
  have hget : get_time r = .error (.valueErrorNoTime r) := by
    unfold get_time
    rw [hcpu, hreal]
  have hmem : n ∈ sortedNames b cur := by
    have hu : n ∈ b.map Prod.fst ∨ n ∈ cur.map Prod.fst := by
      rcases hr with h | h
      · exact Or.inl (lookup_some_mem_keys h)
      · exact Or.inr (lookup_some_mem_keys h)
    exact (List.perm_insertionSort _ _).mem_iff.mpr
      (List.mem_dedup.mpr (List.mem_append.mpr hu))
  have herr : ∃ e, compareOne b cur t n = .error e := by
    rcases hr with h | h
    · cases hc : List.lookup n cur with
      | none =>
        exact ⟨.valueErrorNoTime r, by simp only [compareOne, h, hc, hget]⟩
      | some cb =>
        exact ⟨.valueErrorNoTime r, by simp only [compareOne, h, hc, hget]⟩
    · cases hb : List.lookup n b with
      | none =>
        exact ⟨.valueErrorNoTime r, by simp only [compareOne, hb, h, hget]⟩
      | some bb =>
        cases hg : get_time bb with
        | error e => exact ⟨e, by simp only [compareOne, hb, h, hg]⟩
        | ok v =>
          exact ⟨.valueErrorNoTime r, by simp only [compareOne, hb, h, hg, hget]⟩
  obtain ⟨e, he⟩ := herr
  obtain ⟨e2, he2⟩ := mapE_error_of_mem hmem he
  refine ⟨⟨e2, he2⟩, fun l hl => ?_⟩
  unfold compare_benchmarks at hl
  rw [he2] at hl
  exact Except.noConfusion hl

/-- Claim C5 witness: a baseline whose single record has no time field at all;
the comparison errors out. -/
theorem c5_missing_time_aborts_witness :
    List.lookup "x" [("x", ([] : Bench))] = some []
    ∧ List.lookup "cpu_time" ([] : Bench) = none
    ∧ List.lookup "real_time" ([] : Bench) = none
    ∧ (∃ e, compare_benchmarks [("x", ([] : Bench))] [] (1/10) = .error e) :=
  ⟨rfl, rfl, rfl,
    (c5_missing_time_aborts [("x", [])] [] (1/10) "x" [] (Or.inl rfl) rfl
      rfl).1⟩

/-- Claim C8 (encoding bug at the microsecond unit): the 999/1000 boundary and
the two-decimal rendering behave as claimed — `format_time 999 = "999.00 ns"`
— but the source file's microsecond literal is the mojibake `¬µs` (bytes
`C2 AC C2 B5 73`), so `format_time 1000` renders `"1.00 ¬µs"` and not the
claimed `"1.00 µs"`. -/
theorem c8_format_time_boundary :
    format_time 999 = "999.00 ns"
    ∧ format_time 1000 = "1.00 \u00AC\u00B5s"
    ∧ format_time 1000 ≠ "1.00 \u00B5s" := by
  refine ⟨?_, ?_, ?_⟩
  · norm_num [format_time, pyFmtFixed, fmtFixedNonneg, roundHalfEven]
    decide
  · norm_num [format_time, pyFmtFixed, fmtFixedNonneg, roundHalfEven]
    decide
  · norm_num [format_time, pyFmtFixed, fmtFixedNonneg, roundHalfEven]
    decide

/-- Claim C9: a present-but-zero time renders as the sentinel `N/A` — the same
text as an absent (`None`) time — in all three report tables, because the
rendering tests Python truthiness rather than presence; every comparison's
full-results row appears in the report, and its regression/improvement rows
appear when it has the corresponding change type. -/
theorem c9_zero_time_renders_na (cs : List BenchmarkComparison)
    (bf cf : String) (c : BenchmarkComparison) (hc : c ∈ cs) :
    timeCell (some 0) = "N/A" ∧ timeCell none = "N/A"
    ∧ allResultsRow c ∈ generate_markdown_report_lines cs bf cf
    ∧ (c.change_type = ChangeType.REGRESSION →
        regressionRow c ∈ generate_markdown_report_lines cs bf cf)
    ∧ (c.change_type = ChangeType.IMPROVEMENT →
        improvementRow c ∈ generate_markdown_report_lines cs bf cf)
    ∧ (c.baseline_time = some 0 →
        allResultsRow c = allResultsRow { c with baseline_time := none }
        ∧ regressionRow c = regressionRow { c with baseline_time := none }
        ∧ improvementRow c = improvementRow { c with baseline_time := none })
    ∧ (c.current_time = some 0 →
        allResultsRow c = allResultsRow { c with current_time := none }
        ∧ regressionRow c = regressionRow { c with current_time := none }
        ∧ improvementRow c = improvementRow { c with current_time := none }) := by
  refine ⟨by norm_num [timeCell], rfl, ?_, ?_, ?_, ?_, ?_⟩
  · unfold generate_markdown_report_lines
    simp only [List.mem_append]
    exact Or.inr (Or.inr (List.mem_map_of_mem _ hc))
  · intro hreg
    have hmem : c ∈ cs.filter (fun x => x.change_type == ChangeType.REGRESSION) :=
      List.mem_filter.mpr ⟨hc, by simp [hreg]⟩
    unfold generate_markdown_report_lines
    simp only [List.mem_append]
    refine Or.inl (Or.inl (Or.inr ?_))
    rw [if_neg (by simp only [List.isEmpty_iff]; exact List.ne_nil_of_mem hmem)]
    exact List.mem_append_left _
      (List.mem_append_right _ (List.mem_map_of_mem _ hmem))
  · intro himp
    have hmem : c ∈ cs.filter (fun x => x.change_type == ChangeType.IMPROVEMENT) :=
      List.mem_filter.mpr ⟨hc, by simp [himp]⟩
    unfold generate_markdown_report_lines
    simp only [List.mem_append]
    refine Or.inl (Or.inr ?_)
    rw [if_neg (by simp only [List.isEmpty_iff]; exact List.ne_nil_of_mem hmem)]
    exact List.mem_append_left _
      (List.mem_append_right _ (List.mem_map_of_mem _ hmem))
  · intro hb
    refine ⟨?_, ?_, ?_⟩ <;> simp [allResultsRow, regressionRow, improvementRow,
      timeCell, hb]
  · intro hcur
    refine ⟨?_, ?_, ?_⟩ <;> simp [allResultsRow, regressionRow, improvementRow,
      timeCell, hcur]

/-- Claim C9 witness: a one-row report whose comparison has a present but zero
baseline time. -/
theorem c9_zero_time_renders_na_witness :
    ({ name := "z", baseline_time := some 0, current_time := some 5,
       change_percent := 0, change_type := .UNCHANGED,
       speedup := 1 } : BenchmarkComparison)
      ∈ [({ name := "z", baseline_time := some 0, current_time := some 5,
            change_percent := 0, change_type := .UNCHANGED,
            speedup := 1 } : BenchmarkComparison)]
    ∧ timeCell (some 0) = "N/A" ∧ timeCell none = "N/A" := by
  have hc :
      ({ name := "z", baseline_time := some 0, current_time := some 5,
         change_percent := 0, change_type := .UNCHANGED,
         speedup := 1 } : BenchmarkComparison)
      ∈ [({ name := "z", baseline_time := some 0, current_time := some 5,
            change_percent := 0, change_type := .UNCHANGED,
            speedup := 1 } : BenchmarkComparison)] :=
    List.mem_singleton_self _
  have H := c9_zero_time_renders_na _ "base.json" "cur.json" _ hc
  exact ⟨hc, H.1, H.2.1⟩

/-- Claim C4 counterexample: an input that is not an object at all — the empty
JSON list — is returned unchanged by the loader (`'benchmarks' in []` is
false, so the function returns `data`); no error of any kind is raised, which
contradicts the claim that such inputs fail with a `FormatError`. -/
theorem c4_counterexample :
    load_benchmark_json (Json.arr []) = .ok (Json.arr []) := rfl

/-- Claim C4 (amended): the loader performs no shape validation and the script
defines no `FormatError`: whenever `'benchmarks' in data` is false the input
is returned unchanged (even when it is not a name-to-record object), and when
the value under `benchmarks` is a list whose first record is an object without
a `name` field, the comprehension raises a `KeyError`, which propagates to the
caller. -/
theorem c4_loader_amended (data : Json) (items : List Json)
    (rkvs : List (Json × Json))
    (hnoname : rkvs.all (fun kv => !kv.1.isStr "name") = true) :
    (pyContains data "benchmarks" = .ok false →
      load_benchmark_json data = .ok data)
    ∧ load_benchmark_json
        (Json.obj [(Json.str "benchmarks", Json.arr (Json.obj rkvs :: items))])
      = .error (.keyError "name") := by
  constructor
  · intro h
    unfold load_benchmark_json
    rw [h]
  · have h3 : pyGetItemStr (Json.obj rkvs) "name" = .error (.keyError "name") := by
      simp only [pyGetItemStr]
      rw [List.find?_eq_none.mpr ?hnone]
      case hnone =>
        intro kv hkv
        have hall := List.all_eq_true.mp hnoname kv hkv
        simp only [Bool.not_eq_eq_eq_not, Bool.not_true] at hall
        simp [hall]
    unfold load_benchmark_json
    simp only [pyContains, List.any_cons, List.any_nil, Json.isStr,
      beq_self_eq_true, Bool.true_or, Bool.or_false]
    simp only [pyGetItemStr, List.find?_cons_of_pos, Json.isStr,
      beq_self_eq_true, pyIter]
    simp only [benchDict, h3]

/-- Claim C4 witness: the amended loader contract at the empty list (returned
unchanged) and at a one-record wrapped input whose record has no `name`. -/
theorem c4_loader_amended_witness :
    (([] : List (Json × Json)).all (fun kv => !kv.1.isStr "name") = true)
    ∧ ((pyContains (Json.arr []) "benchmarks" = .ok false →
        load_benchmark_json (Json.arr []) = .ok (Json.arr []))
      ∧ load_benchmark_json
          (Json.obj [(Json.str "benchmarks", Json.arr (Json.obj [] :: []))])
        = .error (.keyError "name")) :=
  ⟨rfl, c4_loader_amended (Json.arr []) [] [] rfl⟩

end BenchmarkCompare
